import Mathlib

/-
Shallow embedding of
src/kms/google/cloud/kms_v1/services/key_management_service/transports/grpc.py,
the gRPC transport facade `KeyManagementServiceGrpcTransport`.

Modelling conventions:
* Object identity is modelled by an allocation counter in `World`: every call
  to the external factories (`grpc_helpers.create_channel`,
  `Channel.unary_unary`) allocates a fresh id, so a rebuilt object is never
  equal to a cached one.
* Python exceptions raised during construction are modelled by
  `Except InitError`; a raising constructor produces no transport value at
  all, so no partial state can exist on failure.
* The external environment (ADC credential resolution, the platform default
  SSL credential source, channel creation) is an explicit `Env` record whose
  fields say whether each external operation succeeds and what it yields.
* The serializer / deserializer function objects passed to `unary_unary` are
  identified by their dotted source names as strings.
-/

namespace KmsGrpc

/-- Python-level credential argument: `None`, the literal `False` the
constructor substitutes when a channel is given, or a credentials object
identified by an allocation id. -/
inductive CredValue where
  | pyNone : CredValue
  | pyFalse : CredValue
  | obj : Nat → CredValue
deriving DecidableEq

/-- The `client_cert_source` callback: either it returns a (cert, key) pair
of PEM byte strings when invoked, or invoking it raises. -/
inductive ClientCertSource where
  | returns : String → String → ClientCertSource
  | raises : ClientCertSource
deriving DecidableEq

/-- SSL channel credentials: built from a client certificate pair by
`grpc.ssl_channel_credentials`, or the platform application-default SSL
credentials `SslCredentials().ssl_credentials` (identified by id). -/
inductive SslCreds where
  | fromClientCert : String → String → SslCreds
  | platformDefault : Nat → SslCreds
deriving DecidableEq

/-- The exceptions the construction path can raise: `auth.default` failing,
the `client_cert_source` callback raising, the platform default SSL
credential source failing, and `grpc_helpers.create_channel` failing. -/
inductive InitError where
  | authDefaultError : InitError
  | certSourceError : InitError
  | defaultSslError : InitError
  | channelCreateError : InitError
deriving DecidableEq

/-- External environment: what the auth library and grpc helpers would do if
called. `none` in an `Option` field means the corresponding call raises. -/
structure Env where
  authDefault : Option Nat
  defaultSslCreds : Option Nat
  channelCreateOk : Bool
deriving DecidableEq

/-- Allocation state: the next fresh object id. -/
structure World where
  nextId : Nat
deriving DecidableEq

/-- A grpc channel object: its identity plus the host, credentials and SSL
credentials it was created with. -/
structure Channel where
  id : Nat
  host : String
  credentials : CredValue
  sslCredentials : Option SslCreds
deriving DecidableEq

/-- A unary-unary stub object produced by `channel.unary_unary(path,
request_serializer, response_deserializer)`: its identity, the channel it
was produced from, the fixed method path, and the names of the serializer
and deserializer function objects it was given. -/
structure Stub where
  id : Nat
  channelId : Nat
  path : String
  requestSerializerName : String
  responseDeserializerName : String
deriving DecidableEq

/-- Model of `grpc_helpers.create_channel(host, credentials=...,
ssl_credentials=..., scopes=...)`: allocates a fresh channel object bound to
its arguments, or raises when the environment cannot create a channel.
Scopes are passed through verbatim in the source and affect nothing modelled
here. -/
def grpc_helpers_create_channel (env : Env) (w : World) (host : String)
    (creds : CredValue) (ssl : Option SslCreds) :
    Except InitError (Channel × World) :=
  if env.channelCreateOk then
    Except.ok (⟨w.nextId, host, creds, ssl⟩, ⟨w.nextId + 1⟩)
  else
    Except.error InitError.channelCreateError

/-- Model of `channel.unary_unary(path, request_serializer,
response_deserializer)`: allocates a fresh stub object bound to the channel,
the path and the two codec function objects. -/
def Channel.unary_unary (ch : Channel) (w : World)
    (path ser deser : String) : Stub × World :=
  (⟨w.nextId, ch.id, path, ser, deser⟩, ⟨w.nextId + 1⟩)

/-- Python truthiness of an optional string argument: `None` and the empty
string are falsy. -/
def truthy : Option String → Bool
  | none => false
  | some s => !s.isEmpty

/-- Lines 98-99 of the source: `if credentials is None: credentials, _ =
auth.default(scopes=self.AUTH_SCOPES)`; raises when default credential
resolution fails. -/
def resolveCredentials (env : Env) (credentials : CredValue) :
    Except InitError CredValue :=
  match credentials with
  | CredValue.pyNone =>
      match env.authDefault with
      | none => Except.error InitError.authDefaultError
      | some cid => Except.ok (CredValue.obj cid)
  | c => Except.ok c

/-- Lines 103-109 of the source: build SSL credentials from the
`client_cert_source` callback when one is given (invoking it, which may
raise), otherwise from `SslCredentials().ssl_credentials`, the platform
application-default SSL credentials (which may also fail). -/
def resolveSslCredentials (env : Env) (ccs : Option ClientCertSource) :
    Except InitError SslCreds :=
  match ccs with
  | some (ClientCertSource.returns cert key) =>
      Except.ok (SslCreds.fromClientCert cert key)
  | some ClientCertSource.raises => Except.error InitError.certSourceError
  | none =>
      match env.defaultSslCreds with
      | none => Except.error InitError.defaultSslError
      | some sid => Except.ok (SslCreds.platformDefault sid)

/-- The Python default of the `host` parameter. -/
def DEFAULT_HOST : String := "cloudkms.googleapis.com"

/-- The transport facade state. `grpcChannelCache` models the
`_grpc_channel` attribute, `none` meaning the attribute is absent (the
source tests it with `hasattr`); `stubs` models the `_stubs` dict; `host`
and `credentials` are the `_host` / `_credentials` attributes the base
constructor stores (read back by the `grpc_channel` property). -/
structure KeyManagementServiceGrpcTransport where
  host : String
  credentials : CredValue
  grpcChannelCache : Option Channel
  stubs : List (String × Stub)
deriving DecidableEq

/-- Modelled from the spec: the base class constructor
(`KeyManagementServiceTransport.__init__`, whose file is not under src/)
stores the host and credentials it is given on the facade, per the spec's
construction-time configuration; the source reads them back as `self._host`
and `self._credentials` in the `grpc_channel` property. -/
def baseInit (host : String) (credentials : CredValue) : String × CredValue :=
  (host, credentials)

/-- Model of `KeyManagementServiceGrpcTransport.__init__` (lines 57-121).
Branch 1 (`if channel:`): discard credentials (set to `False`) and store the
given channel. Branch 2 (`elif api_mtls_endpoint:`): override the host with
the endpoint (appending `:443` when it has no colon), resolve credentials
and SSL credentials (either may raise), and create a mutual-TLS channel
(which may raise). Branch 3: store host and credentials, leaving the channel
attribute unset. Finally the base constructor stores host and credentials
and `_stubs` is set to the empty dict. -/
def KeyManagementServiceGrpcTransport.init (env : Env) (w : World)
    (host : String) (credentials : CredValue) (channel : Option Channel)
    (api_mtls_endpoint : Option String)
    (client_cert_source : Option ClientCertSource) :
    Except InitError (KeyManagementServiceGrpcTransport × World) :=
  if channel.isSome then
    Except.ok
      ({ host := (baseInit host CredValue.pyFalse).1,
         credentials := (baseInit host CredValue.pyFalse).2,
         grpcChannelCache := channel, stubs := [] }, w)
  else if truthy api_mtls_endpoint then
    let ep := api_mtls_endpoint.getD ""
    let host2 := if ep.contains ':' then ep else ep ++ ":443"
    match resolveCredentials env credentials with
    | Except.error e => Except.error e
    | Except.ok creds2 =>
      match resolveSslCredentials env client_cert_source with
      | Except.error e => Except.error e
      | Except.ok ssl =>
        match grpc_helpers_create_channel env w host2 creds2 (some ssl) with
        | Except.error e => Except.error e
        | Except.ok (ch, w2) =>
            Except.ok
              ({ host := (baseInit host2 creds2).1,
                 credentials := (baseInit host2 creds2).2,
                 grpcChannelCache := some ch, stubs := [] }, w2)
  else
    Except.ok
      ({ host := (baseInit host credentials).1,
         credentials := (baseInit host credentials).2,
         grpcChannelCache := none, stubs := [] }, w)

/-- Model of the classmethod `create_channel` (lines 123-146): delegates to
`grpc_helpers.create_channel` with no SSL credentials. -/
def KeyManagementServiceGrpcTransport.create_channel (env : Env) (w : World)
    (host : String) (credentials : CredValue) :
    Except InitError (Channel × World) :=
  grpc_helpers_create_channel env w host credentials none

/-- Model of the `grpc_channel` property (lines 148-164): if `_grpc_channel`
is not set, create a channel from the stored host and credentials and cache
it; return the cached channel. -/
def KeyManagementServiceGrpcTransport.grpc_channel (env : Env)
    (t : KeyManagementServiceGrpcTransport) (w : World) :
    Except InitError (Channel × KeyManagementServiceGrpcTransport × World) :=
  match t.grpcChannelCache with
  | some ch => Except.ok (ch, t, w)
  | none =>
      match KeyManagementServiceGrpcTransport.create_channel env w
          t.host t.credentials with
      | Except.error e => Except.error e
      | Except.ok (ch, w2) =>
          Except.ok (ch, { t with grpcChannelCache := some ch }, w2)

/-- The 23 RPC methods for which the source defines a stub-producing
property (lines 166-865), one constructor per accessor, in source order. -/
inductive RpcMethod where
  | list_key_rings | list_crypto_keys | list_crypto_key_versions
  | list_import_jobs | get_key_ring | get_crypto_key
  | get_crypto_key_version | get_public_key | get_import_job
  | create_key_ring | create_crypto_key | create_crypto_key_version
  | import_crypto_key_version | create_import_job | update_crypto_key
  | update_crypto_key_version | encrypt | decrypt | asymmetric_sign
  | asymmetric_decrypt | update_crypto_key_primary_version
  | destroy_crypto_key_version | restore_crypto_key_version
deriving DecidableEq

/-- The `_stubs` dict key each accessor uses (its own operation name). -/
def stubName : RpcMethod → String
  | .list_key_rings => "list_key_rings"
  | .list_crypto_keys => "list_crypto_keys"
  | .list_crypto_key_versions => "list_crypto_key_versions"
  | .list_import_jobs => "list_import_jobs"
  | .get_key_ring => "get_key_ring"
  | .get_crypto_key => "get_crypto_key"
  | .get_crypto_key_version => "get_crypto_key_version"
  | .get_public_key => "get_public_key"
  | .get_import_job => "get_import_job"
  | .create_key_ring => "create_key_ring"
  | .create_crypto_key => "create_crypto_key"
  | .create_crypto_key_version => "create_crypto_key_version"
  | .import_crypto_key_version => "import_crypto_key_version"
  | .create_import_job => "create_import_job"
  | .update_crypto_key => "update_crypto_key"
  | .update_crypto_key_version => "update_crypto_key_version"
  | .encrypt => "encrypt"
  | .decrypt => "decrypt"
  | .asymmetric_sign => "asymmetric_sign"
  | .asymmetric_decrypt => "asymmetric_decrypt"
  | .update_crypto_key_primary_version => "update_crypto_key_primary_version"
  | .destroy_crypto_key_version => "destroy_crypto_key_version"
  | .restore_crypto_key_version => "restore_crypto_key_version"

/-- The fixed service-qualified method path each accessor passes to
`unary_unary`. -/
def methodPath : RpcMethod → String
  | .list_key_rings =>
      "/google.cloud.kms.v1.KeyManagementService/ListKeyRings"
  | .list_crypto_keys =>
      "/google.cloud.kms.v1.KeyManagementService/ListCryptoKeys"
  | .list_crypto_key_versions =>
      "/google.cloud.kms.v1.KeyManagementService/ListCryptoKeyVersions"
  | .list_import_jobs =>
      "/google.cloud.kms.v1.KeyManagementService/ListImportJobs"
  | .get_key_ring =>
      "/google.cloud.kms.v1.KeyManagementService/GetKeyRing"
  | .get_crypto_key =>
      "/google.cloud.kms.v1.KeyManagementService/GetCryptoKey"
  | .get_crypto_key_version =>
      "/google.cloud.kms.v1.KeyManagementService/GetCryptoKeyVersion"
  | .get_public_key =>
      "/google.cloud.kms.v1.KeyManagementService/GetPublicKey"
  | .get_import_job =>
      "/google.cloud.kms.v1.KeyManagementService/GetImportJob"
  | .create_key_ring =>
      "/google.cloud.kms.v1.KeyManagementService/CreateKeyRing"
  | .create_crypto_key =>
      "/google.cloud.kms.v1.KeyManagementService/CreateCryptoKey"
  | .create_crypto_key_version =>
      "/google.cloud.kms.v1.KeyManagementService/CreateCryptoKeyVersion"
  | .import_crypto_key_version =>
      "/google.cloud.kms.v1.KeyManagementService/ImportCryptoKeyVersion"
  | .create_import_job =>
      "/google.cloud.kms.v1.KeyManagementService/CreateImportJob"
  | .update_crypto_key =>
      "/google.cloud.kms.v1.KeyManagementService/UpdateCryptoKey"
  | .update_crypto_key_version =>
      "/google.cloud.kms.v1.KeyManagementService/UpdateCryptoKeyVersion"
  | .encrypt =>
      "/google.cloud.kms.v1.KeyManagementService/Encrypt"
  | .decrypt =>
      "/google.cloud.kms.v1.KeyManagementService/Decrypt"
  | .asymmetric_sign =>
      "/google.cloud.kms.v1.KeyManagementService/AsymmetricSign"
  | .asymmetric_decrypt =>
      "/google.cloud.kms.v1.KeyManagementService/AsymmetricDecrypt"
  | .update_crypto_key_primary_version =>
      "/google.cloud.kms.v1.KeyManagementService/UpdateCryptoKeyPrimaryVersion"
  | .destroy_crypto_key_version =>
      "/google.cloud.kms.v1.KeyManagementService/DestroyCryptoKeyVersion"
  | .restore_crypto_key_version =>
      "/google.cloud.kms.v1.KeyManagementService/RestoreCryptoKeyVersion"

/-- The dotted source name of the request serializer function object each
accessor passes as `request_serializer`. -/
def requestSerializerName : RpcMethod → String
  | .list_key_rings => "service.ListKeyRingsRequest.serialize"
  | .list_crypto_keys => "service.ListCryptoKeysRequest.serialize"
  | .list_crypto_key_versions => "service.ListCryptoKeyVersionsRequest.serialize"
  | .list_import_jobs => "service.ListImportJobsRequest.serialize"
  | .get_key_ring => "service.GetKeyRingRequest.serialize"
  | .get_crypto_key => "service.GetCryptoKeyRequest.serialize"
  | .get_crypto_key_version => "service.GetCryptoKeyVersionRequest.serialize"
  | .get_public_key => "service.GetPublicKeyRequest.serialize"
  | .get_import_job => "service.GetImportJobRequest.serialize"
  | .create_key_ring => "service.CreateKeyRingRequest.serialize"
  | .create_crypto_key => "service.CreateCryptoKeyRequest.serialize"
  | .create_crypto_key_version => "service.CreateCryptoKeyVersionRequest.serialize"
  | .import_crypto_key_version => "service.ImportCryptoKeyVersionRequest.serialize"
  | .create_import_job => "service.CreateImportJobRequest.serialize"
  | .update_crypto_key => "service.UpdateCryptoKeyRequest.serialize"
  | .update_crypto_key_version => "service.UpdateCryptoKeyVersionRequest.serialize"
  | .encrypt => "service.EncryptRequest.serialize"
  | .decrypt => "service.DecryptRequest.serialize"
  | .asymmetric_sign => "service.AsymmetricSignRequest.serialize"
  | .asymmetric_decrypt => "service.AsymmetricDecryptRequest.serialize"
  | .update_crypto_key_primary_version =>
      "service.UpdateCryptoKeyPrimaryVersionRequest.serialize"
  | .destroy_crypto_key_version => "service.DestroyCryptoKeyVersionRequest.serialize"
  | .restore_crypto_key_version => "service.RestoreCryptoKeyVersionRequest.serialize"

/-- The dotted source name of the response deserializer function object each
accessor passes as `response_deserializer`. -/
def responseDeserializerName : RpcMethod → String
  | .list_key_rings => "service.ListKeyRingsResponse.deserialize"
  | .list_crypto_keys => "service.ListCryptoKeysResponse.deserialize"
  | .list_crypto_key_versions => "service.ListCryptoKeyVersionsResponse.deserialize"
  | .list_import_jobs => "service.ListImportJobsResponse.deserialize"
  | .get_key_ring => "resources.KeyRing.deserialize"
  | .get_crypto_key => "resources.CryptoKey.deserialize"
  | .get_crypto_key_version => "resources.CryptoKeyVersion.deserialize"
  | .get_public_key => "resources.PublicKey.deserialize"
  | .get_import_job => "resources.ImportJob.deserialize"
  | .create_key_ring => "resources.KeyRing.deserialize"
  | .create_crypto_key => "resources.CryptoKey.deserialize"
  | .create_crypto_key_version => "resources.CryptoKeyVersion.deserialize"
  | .import_crypto_key_version => "resources.CryptoKeyVersion.deserialize"
  | .create_import_job => "resources.ImportJob.deserialize"
  | .update_crypto_key => "resources.CryptoKey.deserialize"
  | .update_crypto_key_version => "resources.CryptoKeyVersion.deserialize"
  | .encrypt => "service.EncryptResponse.deserialize"
  | .decrypt => "service.DecryptResponse.deserialize"
  | .asymmetric_sign => "service.AsymmetricSignResponse.deserialize"
  | .asymmetric_decrypt => "service.AsymmetricDecryptResponse.deserialize"
  | .update_crypto_key_primary_version => "resources.CryptoKey.deserialize"
  | .destroy_crypto_key_version => "resources.CryptoKeyVersion.deserialize"
  | .restore_crypto_key_version => "resources.CryptoKeyVersion.deserialize"

/-- All 23 stub accessors the class defines, in source order. -/
def RpcMethod.all : List RpcMethod :=
  [.list_key_rings, .list_crypto_keys, .list_crypto_key_versions,
   .list_import_jobs, .get_key_ring, .get_crypto_key,
   .get_crypto_key_version, .get_public_key, .get_import_job,
   .create_key_ring, .create_crypto_key, .create_crypto_key_version,
   .import_crypto_key_version, .create_import_job, .update_crypto_key,
   .update_crypto_key_version, .encrypt, .decrypt, .asymmetric_sign,
   .asymmetric_decrypt, .update_crypto_key_primary_version,
   .destroy_crypto_key_version, .restore_crypto_key_version]

/-- The body shared by all 23 stub-producing properties (e.g. lines 184-190
for `list_key_rings`): if the operation name is not a key of `_stubs`,
obtain the channel via the `grpc_channel` property and store the result of
`unary_unary(path, request_serializer, response_deserializer)` under the
operation name; return the entry stored under the operation name. -/
def KeyManagementServiceGrpcTransport.getStub (env : Env) (m : RpcMethod)
    (t : KeyManagementServiceGrpcTransport) (w : World) :
    Except InitError (Stub × KeyManagementServiceGrpcTransport × World) :=
  match t.stubs.lookup (stubName m) with
  | some s => Except.ok (s, t, w)
  | none =>
      match t.grpc_channel env w with
      | Except.error e => Except.error e
      | Except.ok (ch, t1, w1) =>
          let p := ch.unary_unary w1 (methodPath m)
            (requestSerializerName m) (responseDeserializerName m)
          Except.ok (p.1,
            { t1 with stubs := (stubName m, p.1) :: t1.stubs }, p.2)

/-- The `list_key_rings` property (lines 166-190). -/
def KeyManagementServiceGrpcTransport.list_key_rings (env : Env)
    (t : KeyManagementServiceGrpcTransport) (w : World) :
    Except InitError (Stub × KeyManagementServiceGrpcTransport × World) :=
  t.getStub env RpcMethod.list_key_rings w

/-- The `encrypt` property (lines 630-658). -/
def KeyManagementServiceGrpcTransport.encrypt (env : Env)
    (t : KeyManagementServiceGrpcTransport) (w : World) :
    Except InitError (Stub × KeyManagementServiceGrpcTransport × World) :=
  t.getStub env RpcMethod.encrypt w

/-- The `destroy_crypto_key_version` property (lines 784-828). -/
def KeyManagementServiceGrpcTransport.destroy_crypto_key_version (env : Env)
    (t : KeyManagementServiceGrpcTransport) (w : World) :
    Except InitError (Stub × KeyManagementServiceGrpcTransport × World) :=
  t.getStub env RpcMethod.destroy_crypto_key_version w

/-- Helper: the `grpc_channel` property on a facade whose channel attribute
is set returns the cached channel, leaving all state unchanged. -/
theorem grpcChannel_of_cached (env : Env)
    (t : KeyManagementServiceGrpcTransport) (w : World) (ch : Channel)
    (h : t.grpcChannelCache = some ch) :
    t.grpc_channel env w = Except.ok (ch, t, w) := by
  unfold KeyManagementServiceGrpcTransport.grpc_channel
  rw [h]

/-- Helper: complete case analysis of a successful `grpc_channel` access:
either the cached channel is returned unchanged, or the attribute was unset
and a fresh channel built from the stored host and credentials (and no SSL
credentials) is allocated and cached. -/
theorem grpcChannel_ok_cases (env : Env)
    (t : KeyManagementServiceGrpcTransport) (w : World) (ch : Channel)
    (t1 : KeyManagementServiceGrpcTransport) (w1 : World)
    (h : t.grpc_channel env w = Except.ok (ch, t1, w1)) :
    (t.grpcChannelCache = some ch ∧ t1 = t ∧ w1 = w) ∨
    (t.grpcChannelCache = none ∧ env.channelCreateOk = true ∧
     ch = ⟨w.nextId, t.host, t.credentials, none⟩ ∧ w1 = ⟨w.nextId + 1⟩ ∧
     t1 = { t with grpcChannelCache := some ch }) := by
  cases hc : t.grpcChannelCache with
  | some c =>
      rw [grpcChannel_of_cached env t w c hc] at h
      simp only [Except.ok.injEq, Prod.mk.injEq] at h
      exact Or.inl ⟨by rw [h.1], h.2.1.symm, h.2.2.symm⟩
  | none =>
      unfold KeyManagementServiceGrpcTransport.grpc_channel
        KeyManagementServiceGrpcTransport.create_channel
        grpc_helpers_create_channel at h
      rw [hc] at h
      by_cases hok : env.channelCreateOk
      · rw [if_pos hok] at h
        simp only [Except.ok.injEq, Prod.mk.injEq] at h
        obtain ⟨h1, h2, h3⟩ := h
        refine Or.inr ⟨rfl, hok, h1.symm, h3.symm, ?_⟩
        rw [← h2, ← h1]
      · rw [if_neg hok] at h
        exact Except.noConfusion h

/-- Helper: a stub accessor whose operation name is already a key of
`_stubs` returns the stored binding, leaving all state unchanged. -/
theorem getStub_of_cached (env : Env) (m : RpcMethod)
    (t : KeyManagementServiceGrpcTransport) (w : World) (s : Stub)
    (h : t.stubs.lookup (stubName m) = some s) :
    t.getStub env m w = Except.ok (s, t, w) := by
  unfold KeyManagementServiceGrpcTransport.getStub
  rw [h]

/-- Helper: complete case analysis of a successful stub access: either the
binding was already stored and is returned with no state change, or the name
was absent, the channel is obtained via the `grpc_channel` property, a fresh
stub is allocated by `unary_unary` with the operation's fixed path and codec
names, and it is stored under the operation name. -/
theorem getStub_ok_cases (env : Env) (m : RpcMethod)
    (t : KeyManagementServiceGrpcTransport) (w : World) (s : Stub)
    (t2 : KeyManagementServiceGrpcTransport) (w2 : World)
    (h : t.getStub env m w = Except.ok (s, t2, w2)) :
    (t.stubs.lookup (stubName m) = some s ∧ t2 = t ∧ w2 = w) ∨
    (t.stubs.lookup (stubName m) = none ∧
     ∃ ch t1 w1, t.grpc_channel env w = Except.ok (ch, t1, w1) ∧
       s = ⟨w1.nextId, ch.id, methodPath m, requestSerializerName m,
            responseDeserializerName m⟩ ∧
       w2 = ⟨w1.nextId + 1⟩ ∧
       t2 = { t1 with stubs := (stubName m, s) :: t1.stubs }) := by
  unfold KeyManagementServiceGrpcTransport.getStub at h
  cases hl : t.stubs.lookup (stubName m) with
  | some s0 =>
      rw [hl] at h
      simp only [Except.ok.injEq, Prod.mk.injEq] at h
      exact Or.inl ⟨by rw [h.1], h.2.1.symm, h.2.2.symm⟩
  | none =>
      rw [hl] at h
      cases hc : t.grpc_channel env w with
      | error e =>
          rw [hc] at h
          exact Except.noConfusion h
      | ok trip =>
          obtain ⟨ch, t1, w1⟩ := trip
          rw [hc] at h
          simp only [Channel.unary_unary, Except.ok.injEq, Prod.mk.injEq] at h
          obtain ⟨h1, h2, h3⟩ := h
          refine Or.inr ⟨rfl, ch, t1, w1, rfl, h1.symm, h3.symm, ?_⟩
          rw [← h2, ← h1]

/-- Helper: on a facade produced by a stub access, looking up the accessed
operation name yields the returned binding, and a repeated access returns
the same binding with no further state change. -/
theorem getStub_stores_and_repeats (env : Env) (m : RpcMethod)
    (t : KeyManagementServiceGrpcTransport) (w : World) (s : Stub)
    (t2 : KeyManagementServiceGrpcTransport) (w2 : World)
    (h : t.getStub env m w = Except.ok (s, t2, w2)) :
    t2.stubs.lookup (stubName m) = some s ∧
    t2.getStub env m w2 = Except.ok (s, t2, w2) := by
  rcases getStub_ok_cases env m t w s t2 w2 h with
    ⟨hl, ht, _⟩ | ⟨_, ch, t1, w1, _, _, _, ht⟩
  · subst ht
    exact ⟨hl, getStub_of_cached env m _ w2 s hl⟩
  · subst ht
    have hl2 : List.lookup (stubName m)
        ((stubName m, s) :: t1.stubs) = some s := by
      simp [List.lookup]
    exact ⟨hl2, getStub_of_cached env m _ w2 s hl2⟩

/-- Helper: looking up a name other than the key just prepended to an
association list is unchanged. -/
theorem lookup_cons_ne {β : Type} (n k : String) (b : β)
    (l : List (String × β)) (hn : n ≠ k) :
    List.lookup n ((k, b) :: l) = List.lookup n l := by
  simp [List.lookup, beq_eq_false_iff_ne.mpr hn]

/-- Concrete environment for witnesses: default credentials resolve to
object 7, the platform default SSL credentials are object 3, and channel
creation succeeds. -/
def sampleEnv : Env := ⟨some 7, some 3, true⟩

/-- Concrete channel object used by the witnesses. -/
def sampleChannel : Channel :=
  ⟨0, "cloudkms.googleapis.com:443", CredValue.obj 7,
   some (SslCreds.platformDefault 3)⟩

/-- Concrete facade holding `sampleChannel`, with an empty stub dict. -/
def sampleTransport : KeyManagementServiceGrpcTransport :=
  ⟨"cloudkms.googleapis.com:443", CredValue.obj 7, some sampleChannel, []⟩

/-- Allocation state after `sampleChannel` (id 0) was allocated. -/
def sampleWorld : World := ⟨1⟩

/-- The stub the first `list_key_rings` access on `sampleTransport`
allocates. -/
def sampleStub : Stub :=
  ⟨1, 0, "/google.cloud.kms.v1.KeyManagementService/ListKeyRings",
   "service.ListKeyRingsRequest.serialize",
   "service.ListKeyRingsResponse.deserialize"⟩

/-- The facade after the first `list_key_rings` access on
`sampleTransport`. -/
def sampleTransport1 : KeyManagementServiceGrpcTransport :=
  ⟨"cloudkms.googleapis.com:443", CredValue.obj 7, some sampleChannel,
   [("list_key_rings", sampleStub)]⟩

/-- Allocation state after `sampleStub` (id 1) was allocated. -/
def sampleWorld1 : World := ⟨2⟩

/-- C1: for every operation name and every facade state, a successful
access of the stub-producing accessor stores the returned binding in the
`_stubs` mapping keyed by the operation name, and a second access of the
same accessor returns that identical stored binding object (the same
allocation, not a rebuild) with no state change. -/
theorem stub_accessor_memoizes (env : Env) (m : RpcMethod)
    (t : KeyManagementServiceGrpcTransport) (w : World) (s : Stub)
    (t2 : KeyManagementServiceGrpcTransport) (w2 : World)
    (h : t.getStub env m w = Except.ok (s, t2, w2)) :
    t2.stubs.lookup (stubName m) = some s ∧
    t2.getStub env m w2 = Except.ok (s, t2, w2) :=
  getStub_stores_and_repeats env m t w s t2 w2 h

/-- Witness for C1 at a concrete facade: after the first `list_key_rings`
access on `sampleTransport`, the second access returns the identical stored
binding with no state change. -/
theorem stub_accessor_memoizes_witness :
    KeyManagementServiceGrpcTransport.getStub sampleEnv
      RpcMethod.list_key_rings sampleTransport1 sampleWorld1 =
      Except.ok (sampleStub, sampleTransport1, sampleWorld1) :=
  (stub_accessor_memoizes sampleEnv RpcMethod.list_key_rings sampleTransport
    sampleWorld sampleStub sampleTransport1 sampleWorld1 (by rfl)).2

/-- C4: the underlying channel is created at most once per facade and
cached: a facade whose channel attribute is set returns that same channel
object on every `grpc_channel` access with no state change; a facade whose
channel attribute is unset builds a channel from the stored host and
credentials on a successful first access, caches it, and every later access
returns the cached channel without rebuilding. -/
theorem grpc_channel_cached_once (env : Env)
    (t : KeyManagementServiceGrpcTransport) (w : World) :
    (∀ ch, t.grpcChannelCache = some ch →
       t.grpc_channel env w = Except.ok (ch, t, w)) ∧
    (∀ ch t1 w1, t.grpcChannelCache = none →
       t.grpc_channel env w = Except.ok (ch, t1, w1) →
       ch.host = t.host ∧ ch.credentials = t.credentials ∧
       ch.sslCredentials = none ∧
       t1 = { t with grpcChannelCache := some ch } ∧
       t1.grpc_channel env w1 = Except.ok (ch, t1, w1)) := by
  constructor
  · intro ch hch
    exact grpcChannel_of_cached env t w ch hch
  · intro ch t1 w1 hnone h
    rcases grpcChannel_ok_cases env t w ch t1 w1 h with
      ⟨hc, _, _⟩ | ⟨_, _, hch, _, ht⟩
    · rw [hnone] at hc
      exact Option.noConfusion hc
    · subst ht
      exact ⟨by rw [hch], by rw [hch], by rw [hch], rfl,
        grpcChannel_of_cached env _ w1 ch rfl⟩

/-- Witness for C4 at a concrete facade: the channel supplied at
construction is returned as-is by `grpc_channel`. -/
theorem grpc_channel_cached_once_witness :
    KeyManagementServiceGrpcTransport.grpc_channel sampleEnv sampleTransport
      sampleWorld = Except.ok (sampleChannel, sampleTransport, sampleWorld) :=
  (grpc_channel_cached_once sampleEnv sampleTransport sampleWorld).1
    sampleChannel rfl

/-- C8: frame property of a stub access: a successful access of operation
`m` leaves the stored host and credentials unchanged, changes no `_stubs`
entry other than `m`'s, preserves an already-cached channel, and repeating
the access performs no further writes (the state is returned unchanged). -/
theorem stub_access_frame (env : Env) (m : RpcMethod)
    (t : KeyManagementServiceGrpcTransport) (w : World) (s : Stub)
    (t2 : KeyManagementServiceGrpcTransport) (w2 : World)
    (h : t.getStub env m w = Except.ok (s, t2, w2)) :
    t2.host = t.host ∧ t2.credentials = t.credentials ∧
    (∀ n, n ≠ stubName m → t2.stubs.lookup n = t.stubs.lookup n) ∧
    (∀ ch, t.grpcChannelCache = some ch → t2.grpcChannelCache = some ch) ∧
    t2.getStub env m w2 = Except.ok (s, t2, w2) := by
  have hrep := (getStub_stores_and_repeats env m t w s t2 w2 h).2
  rcases getStub_ok_cases env m t w s t2 w2 h with
    ⟨_, ht, _⟩ | ⟨_, ch, t1, w1, hchan, _, _, ht⟩
  · subst ht
    exact ⟨rfl, rfl, fun n _ => rfl, fun c hc => hc, hrep⟩
  · rcases grpcChannel_ok_cases env t w ch t1 w1 hchan with
      ⟨_, ht1, _⟩ | ⟨hc1, _, _, _, ht1⟩
    · subst ht1
      subst ht
      exact ⟨rfl, rfl, fun n hn => lookup_cons_ne n (stubName m) s _ hn,
        fun c hc => hc, hrep⟩
    · subst ht1
      subst ht
      exact ⟨rfl, rfl, fun n hn => lookup_cons_ne n (stubName m) s _ hn,
        fun c hc => by rw [hc1] at hc; exact Option.noConfusion hc, hrep⟩

/-- Witness for C8 at a concrete facade: applying the frame theorem to the
first `list_key_rings` access on `sampleTransport` shows the host is
unchanged and the cached channel is preserved. -/
theorem stub_access_frame_witness :
    sampleTransport1.host = sampleTransport.host ∧
    sampleTransport1.grpcChannelCache = some sampleChannel := by
  have hfr := stub_access_frame sampleEnv RpcMethod.list_key_rings
    sampleTransport sampleWorld sampleStub sampleTransport1 sampleWorld1
    (by rfl)
  exact ⟨hfr.1, hfr.2.2.2.1 sampleChannel rfl⟩

/-- Helper: when the environment can create channels,
`grpc_helpers.create_channel` allocates a fresh channel bound to its
arguments. -/
theorem create_channel_ok (env : Env) (w : World) (host : String)
    (creds : CredValue) (ssl : Option SslCreds)
    (h : env.channelCreateOk = true) :
    grpc_helpers_create_channel env w host creds ssl =
      Except.ok (⟨w.nextId, host, creds, ssl⟩, ⟨w.nextId + 1⟩) := by
  unfold grpc_helpers_create_channel
  rw [if_pos h]

/-- Helper: when the environment cannot create channels,
`grpc_helpers.create_channel` raises. -/
theorem create_channel_fail (env : Env) (w : World) (host : String)
    (creds : CredValue) (ssl : Option SslCreds)
    (h : env.channelCreateOk = false) :
    grpc_helpers_create_channel env w host creds ssl =
      Except.error InitError.channelCreateError := by
  unfold grpc_helpers_create_channel
  rw [if_neg (by simp [h])]

/-- Helper: reduction of the constructor's mutual-TLS branch (no channel,
truthy endpoint): the host is overridden by the endpoint (with ":443"
appended when it has no colon) and the three fallible resolution steps run
in source order. -/
theorem init_mtls_eq (env : Env) (w : World) (host : String)
    (creds : CredValue) (ep : String) (ccs : Option ClientCertSource)
    (hep : ep.isEmpty = false) :
    KeyManagementServiceGrpcTransport.init env w host creds none
      (some ep) ccs =
      (match resolveCredentials env creds with
       | Except.error e => Except.error e
       | Except.ok creds2 =>
         match resolveSslCredentials env ccs with
         | Except.error e => Except.error e
         | Except.ok ssl =>
           match grpc_helpers_create_channel env w
               (if ep.contains ':' then ep else ep ++ ":443")
               creds2 (some ssl) with
           | Except.error e => Except.error e
           | Except.ok (ch, w2) =>
               Except.ok
                 ({ host := if ep.contains ':' then ep else ep ++ ":443",
                    credentials := creds2, grpcChannelCache := some ch,
                    stubs := [] }, w2)) := by
  unfold KeyManagementServiceGrpcTransport.init
  simp [truthy, hep, baseInit]

/-- C3: constructing with both an explicit channel and explicit credentials
stores the channel as the facade's channel (the `grpc_channel` property
returns it) and discards the credentials: the constructor replaces them
with `False` before the base initializer runs, so the resulting facade is
independent of the credentials argument. -/
theorem channel_overrides_credentials (env : Env) (w : World) (host : String)
    (c1 c2 : CredValue) (ch : Channel) (ep : Option String)
    (ccs : Option ClientCertSource) :
    KeyManagementServiceGrpcTransport.init env w host c1 (some ch) ep ccs =
      KeyManagementServiceGrpcTransport.init env w host c2 (some ch) ep ccs ∧
    KeyManagementServiceGrpcTransport.init env w host c1 (some ch) ep ccs =
      Except.ok ({ host := host, credentials := CredValue.pyFalse,
                   grpcChannelCache := some ch, stubs := [] }, w) ∧
    KeyManagementServiceGrpcTransport.grpc_channel env
      ⟨host, CredValue.pyFalse, some ch, []⟩ w =
      Except.ok (ch, ⟨host, CredValue.pyFalse, some ch, []⟩, w) :=
  ⟨rfl, rfl, rfl⟩

/-- C9: when an explicit channel is supplied, the api_mtls_endpoint and
client_cert_source arguments have no effect: the mutual-TLS branch is never
entered (even a raising callback causes no failure), the host is not
overridden, and two constructions differing only in those two arguments
produce identical facade state. -/
theorem channel_ignores_mtls_args (env : Env) (w : World) (host : String)
    (creds : CredValue) (ch : Channel) (ep1 ep2 : Option String)
    (ccs1 ccs2 : Option ClientCertSource) :
    KeyManagementServiceGrpcTransport.init env w host creds (some ch)
      ep1 ccs1 =
      KeyManagementServiceGrpcTransport.init env w host creds (some ch)
        ep2 ccs2 ∧
    KeyManagementServiceGrpcTransport.init env w host creds (some ch)
      ep1 ccs1 =
      Except.ok ({ host := host, credentials := CredValue.pyFalse,
                   grpcChannelCache := some ch, stubs := [] }, w) :=
  ⟨rfl, rfl⟩

/-- C10: constructing with an api_mtls_endpoint and no channel uses, both
for the mutual-TLS channel and as the stored host, the endpoint string
itself when it contains a colon and otherwise the endpoint with ":443"
appended; the original host argument is discarded (the construction result
is independent of it). -/
theorem mtls_host_override (env : Env) (w : World) (h1 h2 : String)
    (creds : CredValue) (ep : String) (ccs : Option ClientCertSource)
    (hep : ep.isEmpty = false) :
    KeyManagementServiceGrpcTransport.init env w h1 creds none
      (some ep) ccs =
      KeyManagementServiceGrpcTransport.init env w h2 creds none
        (some ep) ccs ∧
    (∀ t w2,
      KeyManagementServiceGrpcTransport.init env w h1 creds none
        (some ep) ccs = Except.ok (t, w2) →
      t.host = (if ep.contains ':' then ep else ep ++ ":443") ∧
      ∃ ch, t.grpcChannelCache = some ch ∧
        ch.host = (if ep.contains ':' then ep else ep ++ ":443")) := by
  constructor
  · rw [init_mtls_eq env w h1 creds ep ccs hep,
        init_mtls_eq env w h2 creds ep ccs hep]
  · intro t w2 hok
    rw [init_mtls_eq env w h1 creds ep ccs hep] at hok
    cases hc : resolveCredentials env creds with
    | error e =>
        simp only [hc] at hok
        exact Except.noConfusion hok
    | ok creds2 =>
        simp only [hc] at hok
        cases hs : resolveSslCredentials env ccs with
        | error e =>
            simp only [hs] at hok
            exact Except.noConfusion hok
        | ok ssl =>
            simp only [hs] at hok
            cases hchk : env.channelCreateOk with
            | true =>
                simp only [create_channel_ok env w _ creds2 (some ssl) hchk,
                  Except.ok.injEq, Prod.mk.injEq] at hok
                rw [← hok.1]
                exact ⟨rfl, ⟨w.nextId, if ep.contains ':' then ep
                  else ep ++ ":443", creds2, some ssl⟩, rfl, rfl⟩
            | false =>
                simp only [create_channel_fail env w _ creds2 (some ssl)
                  hchk] at hok
                exact Except.noConfusion hok

/-- Witness for C10 at a concrete input: the endpoint "kms.mtls.example"
has no colon, so the stored host and the channel host are
"kms.mtls.example:443" regardless of the original host argument. -/
theorem mtls_host_override_witness :
    KeyManagementServiceGrpcTransport.init sampleEnv ⟨0⟩ "originalhost"
      (CredValue.obj 5) none (some "kms.mtls.example") none =
      KeyManagementServiceGrpcTransport.init sampleEnv ⟨0⟩ "otherhost"
        (CredValue.obj 5) none (some "kms.mtls.example") none ∧
    ∀ t w2,
      KeyManagementServiceGrpcTransport.init sampleEnv ⟨0⟩ "originalhost"
        (CredValue.obj 5) none (some "kms.mtls.example") none =
        Except.ok (t, w2) →
      t.host = (if ("kms.mtls.example" : String).contains ':' then
        "kms.mtls.example" else "kms.mtls.example" ++ ":443") ∧
      ∃ ch, t.grpcChannelCache = some ch ∧
        ch.host = (if ("kms.mtls.example" : String).contains ':' then
          "kms.mtls.example" else "kms.mtls.example" ++ ":443") :=
  mtls_host_override sampleEnv ⟨0⟩ "originalhost" "otherhost"
    (CredValue.obj 5) "kms.mtls.example" none (by rfl)

/-- C2: constructing with an api_mtls_endpoint and no channel fails fast
with a descriptive error whenever resolving the mutual-TLS material fails:
default credential resolution raising, the client_cert_source callback
raising, the platform default SSL credential source failing, or mutual-TLS
channel creation failing each make the constructor return an error; the
error result carries no transport value, so no stub binding is built and no
partial state (in particular no `_stubs` mapping) exists. -/
theorem mtls_failure_fast (env : Env) (w : World) (host : String)
    (creds : CredValue) (ep : String) (ccs : Option ClientCertSource)
    (hep : ep.isEmpty = false) :
    (creds = CredValue.pyNone → env.authDefault = none →
       KeyManagementServiceGrpcTransport.init env w host creds none
         (some ep) ccs = Except.error InitError.authDefaultError) ∧
    ((creds = CredValue.pyNone → env.authDefault ≠ none) →
       ccs = some ClientCertSource.raises →
       KeyManagementServiceGrpcTransport.init env w host creds none
         (some ep) ccs = Except.error InitError.certSourceError) ∧
    ((creds = CredValue.pyNone → env.authDefault ≠ none) →
       ccs = none → env.defaultSslCreds = none →
       KeyManagementServiceGrpcTransport.init env w host creds none
         (some ep) ccs = Except.error InitError.defaultSslError) ∧
    ((creds = CredValue.pyNone → env.authDefault ≠ none) →
       ccs ≠ some ClientCertSource.raises →
       (ccs = none → env.defaultSslCreds ≠ none) →
       env.channelCreateOk = false →
       KeyManagementServiceGrpcTransport.init env w host creds none
         (some ep) ccs = Except.error InitError.channelCreateError) := by
  have hcredok : (creds = CredValue.pyNone → env.authDefault ≠ none) →
      ∃ c2, resolveCredentials env creds = Except.ok c2 := by
    intro hne
    cases creds with
    | pyNone =>
        cases ha : env.authDefault with
        | none => exact absurd ha (hne rfl)
        | some cid => exact ⟨CredValue.obj cid, by simp [resolveCredentials, ha]⟩
    | pyFalse => exact ⟨CredValue.pyFalse, rfl⟩
    | obj n => exact ⟨CredValue.obj n, rfl⟩
  refine ⟨?_, ?_, ?_, ?_⟩
  · intro hnone ha
    subst hnone
    rw [init_mtls_eq env w host CredValue.pyNone ep ccs hep]
    have hc : resolveCredentials env CredValue.pyNone =
        Except.error InitError.authDefaultError := by
      simp [resolveCredentials, ha]
    simp only [hc]
  · intro hne hraise
    obtain ⟨c2, hc⟩ := hcredok hne
    subst hraise
    rw [init_mtls_eq env w host creds ep _ hep]
    simp only [hc]
    rfl
  · intro hne hccs hds
    obtain ⟨c2, hc⟩ := hcredok hne
    subst hccs
    rw [init_mtls_eq env w host creds ep none hep]
    have hs : resolveSslCredentials env none =
        Except.error InitError.defaultSslError := by
      simp [resolveSslCredentials, hds]
    simp only [hc, hs]
  · intro hne hccs hds hchk
    obtain ⟨c2, hc⟩ := hcredok hne
    have hsslok : ∃ ssl, resolveSslCredentials env ccs = Except.ok ssl := by
      cases ccs with
      | none =>
          cases hd : env.defaultSslCreds with
          | none => exact absurd hd (hds rfl)
          | some sid =>
              exact ⟨SslCreds.platformDefault sid,
                by simp [resolveSslCredentials, hd]⟩
      | some c =>
          cases c with
          | returns cert key => exact ⟨SslCreds.fromClientCert cert key, rfl⟩
          | raises => exact absurd rfl hccs
    obtain ⟨ssl, hs⟩ := hsslok
    rw [init_mtls_eq env w host creds ep ccs hep]
    simp only [hc, hs, create_channel_fail env w _ c2 (some ssl) hchk]

/-- Witness for C2 at a concrete input: with a mutual-TLS endpoint, explicit
credentials and a raising certificate-source callback, construction returns
the certificate-source error and no transport value. -/
theorem mtls_failure_fast_witness :
    KeyManagementServiceGrpcTransport.init sampleEnv ⟨0⟩ "originalhost"
      (CredValue.obj 5) none (some "kms.mtls.example")
      (some ClientCertSource.raises) =
      Except.error InitError.certSourceError :=
  (mtls_failure_fast sampleEnv ⟨0⟩ "originalhost" (CredValue.obj 5)
    "kms.mtls.example" (some ClientCertSource.raises) (by rfl)).2.1
    (fun h => CredValue.noConfusion h) rfl

/-- C7: constructing with an api_mtls_endpoint but no client_cert_source
callback (and no channel) does not fail for lack of a callback: the SSL
credentials fall back to the platform default certificate source and the
mutual-TLS channel is built with them. -/
theorem mtls_default_cert_fallback (env : Env) (w : World) (host : String)
    (creds : CredValue) (ep : String) (c2 : CredValue) (sid : Nat)
    (hep : ep.isEmpty = false)
    (hcred : resolveCredentials env creds = Except.ok c2)
    (hssl : env.defaultSslCreds = some sid)
    (hok : env.channelCreateOk = true) :
    KeyManagementServiceGrpcTransport.init env w host creds none
      (some ep) none =
      Except.ok ({ host := if ep.contains ':' then ep else ep ++ ":443",
                   credentials := c2,
                   grpcChannelCache := some ⟨w.nextId,
                     if ep.contains ':' then ep else ep ++ ":443", c2,
                     some (SslCreds.platformDefault sid)⟩,
                   stubs := [] }, ⟨w.nextId + 1⟩) := by
  rw [init_mtls_eq env w host creds ep none hep]
  have hs : resolveSslCredentials env none =
      Except.ok (SslCreds.platformDefault sid) := by
    simp [resolveSslCredentials, hssl]
  simp only [hcred, hs, create_channel_ok env w _ c2
    (some (SslCreds.platformDefault sid)) hok]

/-- Witness for C7 at a concrete input: a mutual-TLS endpoint without a
callback yields a facade whose channel carries the platform default SSL
credentials. -/
theorem mtls_default_cert_fallback_witness :
    KeyManagementServiceGrpcTransport.init sampleEnv ⟨0⟩ "originalhost"
      (CredValue.obj 5) none (some "kms.mtls.example") none =
      Except.ok ({ host := if ("kms.mtls.example" : String).contains ':'
                     then "kms.mtls.example" else "kms.mtls.example" ++ ":443",
                   credentials := CredValue.obj 5,
                   grpcChannelCache := some ⟨0,
                     if ("kms.mtls.example" : String).contains ':'
                     then "kms.mtls.example"
                     else "kms.mtls.example" ++ ":443",
                     CredValue.obj 5, some (SslCreds.platformDefault 3)⟩,
                   stubs := [] }, ⟨1⟩) :=
  mtls_default_cert_fallback sampleEnv ⟨0⟩ "originalhost" (CredValue.obj 5)
    "kms.mtls.example" (CredValue.obj 5) 3 (by rfl) rfl rfl rfl

/-- C5 counterexample: the claim that the transport defines exactly 20 RPC
stub accessors is false; the enumeration of the stub-producing properties
the source defines has 23 elements, not 20. -/
theorem rpc_accessor_count_not_twenty :
    (RpcMethod.all.length = 20) = False :=
  eq_false (by decide)

/-- C5 amended: the transport facade defines exactly 23 RPC stub accessors,
one per RPC method name (the operation names are pairwise distinct and the
enumeration is exhaustive), each of which lazily constructs a unary-unary
stub bound to its fixed path and codecs on first access and caches it under
its operation name. -/
theorem rpc_accessor_count_and_caching :
    RpcMethod.all.length = 23 ∧
    (RpcMethod.all.map stubName).Nodup ∧
    (∀ m : RpcMethod, m ∈ RpcMethod.all) ∧
    (∀ env m (t : KeyManagementServiceGrpcTransport) w s t2 w2,
       t.stubs.lookup (stubName m) = none →
       t.getStub env m w = Except.ok (s, t2, w2) →
       s.path = methodPath m ∧
       s.requestSerializerName = requestSerializerName m ∧
       s.responseDeserializerName = responseDeserializerName m ∧
       t2.stubs.lookup (stubName m) = some s) := by
  refine ⟨rfl, by decide, fun m => by cases m <;> simp [RpcMethod.all], ?_⟩
  intro env m t w s t2 w2 habs h
  have hst := getStub_stores_and_repeats env m t w s t2 w2 h
  rcases getStub_ok_cases env m t w s t2 w2 h with
    ⟨hl, _, _⟩ | ⟨_, ch, t1, w1, _, hs, _, _⟩
  · rw [habs] at hl
    exact Option.noConfusion hl
  · subst hs
    exact ⟨rfl, rfl, rfl, hst.1⟩

/-- Witness for C5 (amended) at a concrete facade: the first
`list_key_rings` access builds a stub carrying that operation's fixed path
and codec names and stores it under "list_key_rings". -/
theorem rpc_accessor_count_and_caching_witness :
    sampleStub.path = methodPath RpcMethod.list_key_rings ∧
    sampleStub.requestSerializerName =
      requestSerializerName RpcMethod.list_key_rings ∧
    sampleStub.responseDeserializerName =
      responseDeserializerName RpcMethod.list_key_rings ∧
    sampleTransport1.stubs.lookup (stubName RpcMethod.list_key_rings) =
      some sampleStub :=
  rpc_accessor_count_and_caching.2.2.2 sampleEnv RpcMethod.list_key_rings
    sampleTransport sampleWorld sampleStub sampleTransport1 sampleWorld1
    rfl rfl

/-- C6: on a first access (operation name absent from `_stubs`), the
binding the accessor returns is exactly the object produced by the
channel's unary_unary factory applied to the operation's fixed
service-qualified method path, its request serializer and its response
deserializer, with no wrapper added by this layer; concretely, for
`list_key_rings` the path and codec names are the fixed strings of
lines 185-188 of the source. -/
theorem stub_is_unary_unary_product (env : Env) (m : RpcMethod)
    (t : KeyManagementServiceGrpcTransport) (w : World) (s : Stub)
    (t2 : KeyManagementServiceGrpcTransport) (w2 : World)
    (habs : t.stubs.lookup (stubName m) = none)
    (h : t.getStub env m w = Except.ok (s, t2, w2)) :
    (∃ ch t1 w1, t.grpc_channel env w = Except.ok (ch, t1, w1) ∧
       (s, w2) = ch.unary_unary w1 (methodPath m) (requestSerializerName m)
         (responseDeserializerName m) ∧
       t2 = { t1 with stubs := (stubName m, s) :: t1.stubs }) ∧
    methodPath RpcMethod.list_key_rings =
      "/google.cloud.kms.v1.KeyManagementService/ListKeyRings" ∧
    requestSerializerName RpcMethod.list_key_rings =
      "service.ListKeyRingsRequest.serialize" ∧
    responseDeserializerName RpcMethod.list_key_rings =
      "service.ListKeyRingsResponse.deserialize" := by
  rcases getStub_ok_cases env m t w s t2 w2 h with
    ⟨hl, _, _⟩ | ⟨_, ch, t1, w1, hchan, hs, hw, ht⟩
  · rw [habs] at hl
    exact Option.noConfusion hl
  · refine ⟨⟨ch, t1, w1, hchan, ?_, ht⟩, rfl, rfl, rfl⟩
    unfold Channel.unary_unary
    rw [hs, hw]

/-- Witness for C6 at a concrete facade: the first `list_key_rings` access
on `sampleTransport` returns exactly the unary_unary product for the fixed
ListKeyRings path and codecs. -/
theorem stub_is_unary_unary_product_witness :
    (∃ ch t1 w1,
       KeyManagementServiceGrpcTransport.grpc_channel sampleEnv
         sampleTransport sampleWorld = Except.ok (ch, t1, w1) ∧
       (sampleStub, sampleWorld1) = ch.unary_unary w1
         (methodPath RpcMethod.list_key_rings)
         (requestSerializerName RpcMethod.list_key_rings)
         (responseDeserializerName RpcMethod.list_key_rings) ∧
       sampleTransport1 = { t1 with stubs :=
         (stubName RpcMethod.list_key_rings, sampleStub) :: t1.stubs }) ∧
    methodPath RpcMethod.list_key_rings =
      "/google.cloud.kms.v1.KeyManagementService/ListKeyRings" :=
  have hfull := stub_is_unary_unary_product sampleEnv RpcMethod.list_key_rings
    sampleTransport sampleWorld sampleStub sampleTransport1 sampleWorld1
    rfl rfl
  ⟨hfull.1, hfull.2.1⟩

end KmsGrpc
